import Mathlib

/-!
Verification development for `scripts/nai_director_script.py`.

The script has one API helper, `call_novelai_api`, and one pipeline entry
point, `NovelAIDirectorScript.run`.  Both are embedded below as pure Lean
functions.  Effects of the Python code are made explicit:

* `World` bundles the three external oracles the helper consults:
  `json.loads` (`parseJson`), the combined `base64.b64decode` +
  `PIL.Image.open` step (`decodeB64Image`), and the outcome of the single
  `requests.post` call (`netOutcome`).
* `CallOutcome` records the returned `(images, info_text)` pair together
  with the observable side effects: the `print` lines emitted, whether the
  POST was attempted, and the headers/body it would carry.
* Python strings are Lean `String`s; `str.strip`, `str.split('\n')`,
  `startswith`, the `in` substring test and slicing are re-implemented on
  `List Char` so that they compute inside the kernel.
* JSON values are the inductive `JsonVal`; Python dicts are association
  lists with unique keys, and `dict.update` / `d[k] = v` are `dictUpdate` /
  `dictSet`.  Numeric payload fields (`int(steps)`, `float(scale)`) carry
  `Int` values: the script never computes with them, it only forwards them.
* The exact pretty-printing of `json.dumps(payload, indent=2)` is
  abstracted by `jsonDumps`, a deterministic serializer of the payload;
  no claim depends on the concrete layout of that log line.
-/

/-- Characters stripped by Python `str.strip()`. -/
def pySpace (c : Char) : Bool :=
  c == ' ' || c == '\t' || c == '\n' || c == '\r' || c == '\x0b' || c == '\x0c'

/-- Python `str.strip()`. -/
def pyStrip (s : String) : String :=
  String.mk (((s.data.dropWhile pySpace).reverse.dropWhile pySpace).reverse)

/-- Boolean list-of-characters prefix test (first argument is the pattern). -/
def listIsPre : List Char → List Char → Bool
  | [], _ => true
  | _ :: _, [] => false
  | a :: as, b :: bs => a == b && listIsPre as bs

/-- Contiguous-sublist test, the model of Python's `pat in s`. -/
def listContainsSub : List Char → List Char → Bool
  | [], pat => listIsPre pat []
  | a :: rest, pat => listIsPre pat (a :: rest) || listContainsSub rest pat

/-- Python `pat in s` on strings. -/
def strContains (s pat : String) : Bool := listContainsSub s.data pat.data

/-- Python `s.startswith(pat)`. -/
def strStartsWith (s pat : String) : Bool := listIsPre pat.data s.data

/-- Python slice `s[:n]`. -/
def strTake (s : String) (n : Nat) : String := String.mk (s.data.take n)

/-- Python slice `s[n:]`. -/
def strDrop (s : String) (n : Nat) : String := String.mk (s.data.drop n)

/-- Python `s.split('\n')` on the character list: every `'\n'` is a
separator, so the empty string yields `[[]]`. -/
def splitOnNl : List Char → List (List Char)
  | [] => [[]]
  | c :: cs =>
    if c = '\n' then [] :: splitOnNl cs
    else
      match splitOnNl cs with
      | [] => [[c]]
      | line :: rest => (c :: line) :: rest

/-- Python `s.split('\n')` on strings. -/
def pySplitNl (s : String) : List String := (splitOnNl s.data).map String.mk

/-- JSON values, the model of what `json.loads` can return. -/
inductive JsonVal where
  | null : JsonVal
  | bool : Bool → JsonVal
  | num : Int → JsonVal
  | str : String → JsonVal
  | arr : List JsonVal → JsonVal
  | obj : List (String × JsonVal) → JsonVal

/-- Python `dict` lookup on an association list (keys are unique, so the
first match is the binding). -/
def dictGet {α : Type} : List (String × α) → String → Option α
  | [], _ => none
  | (k, v) :: rest, key => if k = key then some v else dictGet rest key

/-- Python `d[key] = v` on a unique-key association list: replace the
binding in place if the key is present, otherwise append it. -/
def dictSet {α : Type} : List (String × α) → String → α → List (String × α)
  | [], key, v => [(key, v)]
  | (k0, v0) :: rest, key, v =>
    if k0 = key then (key, v) :: rest
    else (k0, v0) :: dictSet rest key v

/-- Python `d.update(e)`: set every binding of `e` in `d`, in order. -/
def dictUpdate {α : Type} (d e : List (String × α)) : List (String × α) :=
  e.foldl (fun acc p => dictSet acc p.1 p.2) d

/-- Field lookup on a JSON value: bindings of an object, `none` otherwise. -/
def jsonGet : JsonVal → String → Option JsonVal
  | .obj fields, key => dictGet fields key
  | _, _ => none

mutual
/-- Deterministic serializer standing for `json.dumps(payload, indent=2)`
in the request log line (the claims depend only on it being a function of
the payload, not on the layout). -/
def jsonDumps : JsonVal → String
  | .null => "null"
  | .bool true => "true"
  | .bool false => "false"
  | .num n => toString n
  | .str s => "\"" ++ s ++ "\""
  | .arr xs => "[" ++ jsonDumpsArr xs ++ "]"
  | .obj fields => "\x7b" ++ jsonDumpsObj fields ++ "\x7d"

/-- Serialize the elements of a JSON array. -/
def jsonDumpsArr : List JsonVal → String
  | [] => ""
  | [v] => jsonDumps v
  | v :: rest => jsonDumps v ++ ", " ++ jsonDumpsArr rest

/-- Serialize the fields of a JSON object. -/
def jsonDumpsObj : List (String × JsonVal) → String
  | [] => ""
  | [(k, v)] => "\"" ++ k ++ "\": " ++ jsonDumps v
  | (k, v) :: rest => "\"" ++ k ++ "\": " ++ jsonDumps v ++ ", " ++ jsonDumpsObj rest
end

/-- Python `str(v)` for a decoded JSON value, as interpolated into the
HTTP-error f-string (scalars as Python prints them; containers reuse the
serializer). -/
def pyStr : JsonVal → String
  | .null => "None"
  | .bool true => "True"
  | .bool false => "False"
  | .num n => toString n
  | .str s => s
  | .arr xs => jsonDumps (.arr xs)
  | .obj fields => jsonDumps (.obj fields)

/-- A decoded in-memory image (`PIL.Image`), opaque to the script. -/
structure Image where
  pixelData : Nat
deriving DecidableEq

/-- The response object returned by `requests.post`: status code, declared
`content-type` header (empty when absent) and body text. -/
structure HttpResponse where
  statusCode : Nat
  contentType : String
  bodyText : String

/-- Outcome of the single `requests.post` call: a timeout, another
`RequestException` (connection error, carrying its message), or a
response object. -/
inductive NetOutcome where
  | timeout : NetOutcome
  | reqError : String → NetOutcome
  | response : HttpResponse → NetOutcome

/-- The external world the helper consults: `json.loads` (an `Except`
since it can raise `JSONDecodeError`), the combined base64-decode plus
`Image.open` step (an `Except` since either can raise), and the network. -/
structure World where
  parseJson : String → Except String JsonVal
  decodeB64Image : String → Except String Image
  netOutcome : NetOutcome

/-- Lines 37-46: parse the Director Tools JSON text.  The blob is parsed
only when it is non-blank (`if director_json_str and
director_json_str.strip():`); a `JSONDecodeError` and a non-dict decode
produce the two distinct error messages of the `except` clauses. -/
def parseDirector (w : World) (director_json_str : String) :
    Except String (List (String × JsonVal)) :=
  if pyStrip director_json_str = "" then .ok []
  else
    match w.parseJson director_json_str with
    | .error e => .error ("Error: Invalid JSON in Director Tools field: " ++ e)
    | .ok (JsonVal.obj fields) => .ok fields
    | .ok _ => .error "Error: Director Tools JSON must decode to a dictionary (object)."

/-- Lines 56-72: the built-in `parameters` object of the payload. -/
def baseParams (neg_prompt : String) (width height steps scale : Int)
    (sampler : String) (seed : Int) : List (String × JsonVal) :=
  [("negative_prompt", .str neg_prompt),
   ("width", .num width),
   ("height", .num height),
   ("steps", .num steps),
   ("scale", .num scale),
   ("sampler", .str sampler),
   ("seed", .num seed),
   ("qualityToggle", .bool true),
   ("ucPreset", .num 0)]

/-- Lines 52-73: the full request body with its fixed top-level fields. -/
def mkPayload (prompt : String) (params : List (String × JsonVal)) : JsonVal :=
  .obj [("input", .str prompt),
        ("model", .str "nai-diffusion-3"),
        ("action", .str "generate"),
        ("parameters", .obj params)]

/-- Line 131: the success info text. -/
def successInfo (seed : Int) : String :=
  "Successfully generated image via NovelAI.\nSeed: " ++ toString seed ++
    " (API might use/return a different one)\n(Check console logs for request details)"

/-- Lines 116-120: scan the lines for the first one starting with
`data:`, returning its stripped remainder. -/
def findDataLine : List String → Option String
  | [] => none
  | line :: rest =>
    if strStartsWith line "data:" then some (pyStrip (strDrop line 5))
    else findDataLine rest

/-- Result of processing a received response: the `(images, info)` pair
plus the `print` lines this stage emits. -/
structure RespOut where
  images : Option (List Image)
  info : String
  logs : List String

/-- Lines 157-163: the error-details text of the `HTTPError` handler.
`e.response.json()` succeeding with a dict reaches
`nai_error.get('message', e.response.text)`; a parse failure, or the
`AttributeError` from `.get` on a non-dict, lands in the bare `except:`
fallback that truncates the raw body. -/
def httpErrorDetails (w : World) (r : HttpResponse) : String :=
  match w.parseJson r.bodyText with
  | .ok (JsonVal.obj fields) =>
    "HTTP Error: " ++ toString r.statusCode ++ "\nNovelAI Message: " ++
      pyStr ((dictGet fields "message").getD (JsonVal.str r.bodyText))
  | _ => "HTTP Error: " ++ toString r.statusCode ++ "\nResponse: " ++ strTake r.bodyText 200

/-- Lines 121-123: the failure used both when no `data:` line exists and
when the found payload is empty (Python's `if not b64_data:`). -/
def streamParseFail (r : HttpResponse) : RespOut :=
  { images := none,
    info := "Error: Could not parse image data from NovelAI stream. Status: " ++
      toString r.statusCode,
    logs := ["Could not find base64 data in event-stream response:\n" ++ r.bodyText] }

/-- Lines 96-165: handle a received response.  `raise_for_status` raises
`HTTPError` exactly for status codes 400-599, which the handler at lines
155-165 turns into the `NovelAI API Error` result; otherwise the body is
dispatched on the declared content type (zip, then event-stream — also
sniffed from the body text — then JSON, then the fallback). -/
def processResponse (w : World) (seed : Int) (r : HttpResponse) : RespOut :=
  if 400 ≤ r.statusCode ∧ r.statusCode < 600 then
    { images := none,
      info := "NovelAI API Error: " ++ httpErrorDetails w r,
      logs := ["NovelAI API HTTP Error: " ++ httpErrorDetails w r] }
  else if strContains r.contentType "application/zip" then
    { images := none, info := "Error: Zip response handling not implemented yet.",
      logs := [] }
  else if strContains r.contentType "text/event-stream" ||
      strStartsWith (pyStrip r.bodyText) "event:" then
    match findDataLine (pySplitNl (pyStrip r.bodyText)) with
    | none => streamParseFail r
    | some b64 =>
      if b64 = "" then streamParseFail r
      else
        match w.decodeB64Image b64 with
        | .error e =>
          { images := none,
            info := "Error decoding image data from NovelAI: " ++ e,
            logs := ["Error decoding base64 data: " ++ e] }
        | .ok img =>
          { images := some [img], info := successInfo seed,
            logs := ["Image received and decoded from event stream."] }
  else if strContains r.contentType "application/json" then
    match w.parseJson r.bodyText with
    | .ok _ =>
      { images := none,
        info := "Error: JSON response handling not implemented yet (unknown structure).",
        logs := [] }
    | .error _ =>
      { images := none,
        info := "Error: Failed to decode JSON response. Status: " ++
          toString r.statusCode ++ ", Content: " ++ strTake r.bodyText 200,
        logs := [] }
  else
    { images := none,
      info := "Error: Unexpected Content-Type from NovelAI: " ++ r.contentType ++
        ". Status: " ++ toString r.statusCode,
      logs := [] }

/-- Everything observable about one invocation of `call_novelai_api`: the
returned `(images, info_text)` pair, the `print` lines in order, whether
`requests.post` was reached, and the headers/body handed to it. -/
structure CallOutcome where
  images : Option (List Image)
  info : String
  logs : List String
  postAttempted : Bool
  sentHeaders : List (String × String)
  sentBody : Option JsonVal

/-- Lines 22-173: the API helper.  Missing key and Director-JSON failures
return before any logging or network activity; otherwise the payload is
built (merging a non-empty override dict into `parameters`), logged, and
the POST outcome is handled — a timeout and other request exceptions map
to their distinct messages, a response goes through `processResponse`. -/
def call_novelai_api (w : World) (api_key prompt neg_prompt : String)
    (width height steps scale : Int) (sampler : String) (seed : Int)
    (director_json_str : String) : CallOutcome :=
  if api_key = "" then
    { images := none, info := "Error: NovelAI API Key is missing.",
      logs := [], postAttempted := false, sentHeaders := [], sentBody := none }
  else
    match parseDirector w director_json_str with
    | .error msg =>
      { images := none, info := msg,
        logs := [], postAttempted := false, sentHeaders := [], sentBody := none }
    | .ok director_params =>
      let params :=
        if director_params.isEmpty then
          baseParams neg_prompt width height steps scale sampler seed
        else
          dictUpdate (baseParams neg_prompt width height steps scale sampler seed)
            director_params
      let payload := mkPayload prompt params
      let headers := [("Authorization", "Bearer " ++ api_key),
                      ("Content-Type", "application/json"),
                      ("accept", "application/json")]
      let preLogs := ["--- Sending Payload to NovelAI ---",
                      jsonDumps payload,
                      "---------------------------------"]
      match w.netOutcome with
      | .timeout =>
        { images := none, info := "Error: Request to NovelAI timed out.",
          logs := preLogs ++ ["NovelAI request timed out."],
          postAttempted := true, sentHeaders := headers, sentBody := some payload }
      | .reqError e =>
        { images := none,
          info := "Error: Network error connecting to NovelAI API: " ++ e,
          logs := preLogs ++ ["Network error calling NovelAI API: " ++ e],
          postAttempted := true, sentHeaders := headers, sentBody := some payload }
      | .response r =>
        let rout := processResponse w seed r
        { images := rout.images, info := rout.info,
          logs := preLogs ++
            ("NovelAI Response Status Code: " ++ toString r.statusCode) :: rout.logs,
          postAttempted := true, sentHeaders := headers, sentBody := some payload }

/-- The fields of the host `StableDiffusionProcessing` object the script
reads or writes. -/
structure Processing where
  prompt : String
  negative_prompt : String
  width : Int
  height : Int
  seed : Int
  extra_generation_params : List (String × String)

/-- The `processing.Processed(p, images, seed, info)` result object. -/
structure Processed where
  images : List Image
  seed : Int
  info : String

namespace NovelAIDirectorScript

/-- Lines 229-274: the pipeline entry point.  Returns the (possibly
mutated) processing object together with the `Processed` result: disabled
runs return `p` untouched with an empty result; a truthy image list is
forwarded; otherwise the error message is written into
`p.extra_generation_params["NovelAI Error"]` and an empty result carries
the prefixed message. -/
def run (w : World) (p : Processing) (enabled : Bool) (api_key : String)
    (steps : Int) (sampler : String) (scale seed : Int)
    (director_tools_json : String) : Processing × Processed :=
  if !enabled then
    (p, { images := [], seed := p.seed, info := "" })
  else
    let out := call_novelai_api w api_key p.prompt p.negative_prompt
      p.width p.height steps scale sampler seed director_tools_json
    match out.images with
    | some (img :: rest) =>
      (p, { images := img :: rest, seed := seed, info := out.info })
    | _ =>
      ({ p with extra_generation_params :=
          dictSet p.extra_generation_params "NovelAI Error" out.info },
       { images := [], seed := p.seed,
         info := "NovelAI Generation Failed: " ++ out.info })

end NovelAIDirectorScript

/-! Concrete worlds and inputs used to evaluate the embedding on closed
instances. -/

/-- A world whose POST times out and whose JSON parser always fails. -/
def wTimeoutW : World :=
  { parseJson := fun _ => .error "boom",
    decodeB64Image := fun _ => .error "d",
    netOutcome := .timeout }

/-- A world whose JSON parser yields the override object `{"foo": 1}`. -/
def wOverrideFoo : World :=
  { parseJson := fun _ => .ok (.obj [("foo", .num 1)]),
    decodeB64Image := fun _ => .error "d",
    netOutcome := .timeout }

/-- A world whose JSON parser yields the override object `{"input": "x"}`,
colliding with the top-level `input` field of the request body. -/
def wOverrideInput : World :=
  { parseJson := fun _ => .ok (.obj [("input", .str "x")]),
    decodeB64Image := fun _ => .error "d",
    netOutcome := .timeout }

/-- A 200 event-stream response carrying a decodable `data:` payload. -/
def wStreamOk : World :=
  { parseJson := fun _ => .error "x",
    decodeB64Image := fun _ => .ok ⟨7⟩,
    netOutcome := .response ⟨200, "text/event-stream", "data: QUJD"⟩ }

/-- A 301 event-stream response carrying a decodable `data:` payload. -/
def wRedirectStream : World :=
  { parseJson := fun _ => .error "x",
    decodeB64Image := fun _ => .ok ⟨7⟩,
    netOutcome := .response ⟨301, "text/event-stream", "data: QUJD"⟩ }

/-- A 200 event-stream response whose payload fails to decode. -/
def wStreamBadDecode : World :=
  { parseJson := fun _ => .error "x",
    decodeB64Image := fun _ => .error "bad",
    netOutcome := .response ⟨200, "text/event-stream", "data: QUJD"⟩ }

/-- A 200 event-stream response without any `data:` line. -/
def wStreamNoData : World :=
  { parseJson := fun _ => .error "x",
    decodeB64Image := fun _ => .error "d",
    netOutcome := .response ⟨200, "text/event-stream", "event: x"⟩ }

/-- A 401 response whose JSON body decodes to `{"message": "bad key"}`. -/
def wHttp401 : World :=
  { parseJson := fun _ => .ok (.obj [("message", .str "bad key")]),
    decodeB64Image := fun _ => .error "d",
    netOutcome := .response ⟨401, "application/json", "body"⟩ }

/-- A 200 JSON-content-type response whose body fails to parse as JSON. -/
def wJsonBad : World :=
  { parseJson := fun _ => .error "boom",
    decodeB64Image := fun _ => .error "d",
    netOutcome := .response ⟨200, "application/json", "x"⟩ }

/-- A 200 zip-content-type response. -/
def wZip : World :=
  { parseJson := fun _ => .error "x",
    decodeB64Image := fun _ => .error "d",
    netOutcome := .response ⟨200, "application/zip", "zzz"⟩ }

/-- A concrete processing object for closed instances of `run`. -/
def procX : Processing :=
  { prompt := "p", negative_prompt := "n", width := 1, height := 2,
    seed := 77, extra_generation_params := [] }

/-! Helper lemmas about the string model. -/

theorem data_append (s t : String) : (s ++ t).data = s.data ++ t.data := by
  cases s; cases t; rfl

theorem string_eq_empty_of_data : ∀ (s : String), s.data = [] → s = ""
  | ⟨[]⟩, _ => rfl
  | ⟨_ :: _⟩, h => nomatch h

theorem str_append_ne_empty (s t : String) (h : s ≠ "") : s ++ t ≠ "" := by
  intro he
  have hd : s.data ++ t.data = [] := by
    rw [← data_append, he]
  exact h (string_eq_empty_of_data s (List.append_eq_nil.mp hd).1)

theorem listIsPre_refl_append (p q : List Char) : listIsPre p (p ++ q) = true := by
  induction p with
  | nil => rfl
  | cons a as ih => simp [listIsPre, ih]

theorem listIsPre_append_ext (p : List Char) :
    ∀ l m : List Char, listIsPre p l = true → listIsPre p (l ++ m) = true := by
  induction p with
  | nil => intro l m _; rfl
  | cons a as ih =>
    intro l m h
    cases l with
    | nil => simp [listIsPre] at h
    | cons b bs =>
      simp only [listIsPre, Bool.and_eq_true] at h
      simp only [List.cons_append, listIsPre, Bool.and_eq_true]
      exact ⟨h.1, ih bs m h.2⟩

theorem listContainsSub_of_isPre (l p : List Char) (h : listIsPre p l = true) :
    listContainsSub l p = true := by
  cases l with
  | nil =>
    cases p with
    | nil => rfl
    | cons a as => simp [listIsPre] at h
  | cons a as => simp [listContainsSub, h]

theorem listContainsSub_infix (p l : List Char) (h : p <:+: l) :
    listContainsSub l p = true := by
  obtain ⟨x, y, hxy⟩ := h
  subst hxy
  induction x with
  | nil => exact listContainsSub_of_isPre _ _ (by simpa using listIsPre_refl_append p y)
  | cons a x ih =>
    simp only [List.cons_append]
    simp only [listContainsSub, Bool.or_eq_true]
    right
    simpa [List.append_assoc] using ih

theorem strContains_infix {s pat : String} (h : pat.data <:+: s.data) :
    strContains s pat = true :=
  listContainsSub_infix pat.data s.data h

theorem strStartsWith_append_left (l x p : String) (h : strStartsWith l p = true) :
    strStartsWith (l ++ x) p = true := by
  unfold strStartsWith at h ⊢
  rw [data_append]
  exact listIsPre_append_ext p.data l.data x.data h

/-! Helper lemmas about the dict model. -/

theorem dictGet_dictSet_self {α : Type} (d : List (String × α)) (key : String) (v : α) :
    dictGet (dictSet d key v) key = some v := by
  induction d with
  | nil => simp [dictSet, dictGet]
  | cons hd tl ih =>
    obtain ⟨k0, v0⟩ := hd
    by_cases h : k0 = key
    · simp [dictSet, h, dictGet]
    · simp [dictSet, h, dictGet, ih]

theorem dictGet_dictSet_ne {α : Type} (d : List (String × α)) (key : String) (v : α)
    (key' : String) (h : key ≠ key') :
    dictGet (dictSet d key v) key' = dictGet d key' := by
  induction d with
  | nil => simp [dictSet, dictGet, h]
  | cons hd tl ih =>
    obtain ⟨k0, v0⟩ := hd
    by_cases h0 : k0 = key
    · subst h0
      simp [dictSet, dictGet, h]
    · simp [dictSet, h0, dictGet, ih]

theorem dictGet_dictUpdate_not_mem {α : Type} (e : List (String × α)) :
    ∀ (d : List (String × α)) (k : String), (∀ p ∈ e, p.1 ≠ k) →
      dictGet (dictUpdate d e) k = dictGet d k := by
  induction e with
  | nil => intro d k _; rfl
  | cons p tl ih =>
    intro d k h
    obtain ⟨k0, v0⟩ := p
    have step : dictUpdate d ((k0, v0) :: tl) = dictUpdate (dictSet d k0 v0) tl := rfl
    rw [step, ih (dictSet d k0 v0) k (fun q hq => h q (List.mem_cons_of_mem _ hq))]
    exact dictGet_dictSet_ne d k0 v0 k (h (k0, v0) (List.mem_cons_self _ _))

theorem dictGet_dictUpdate_mem {α : Type} (e : List (String × α)) :
    ∀ (d : List (String × α)) (k : String) (v : α),
      (e.map Prod.fst).Nodup → dictGet e k = some v →
      dictGet (dictUpdate d e) k = some v := by
  induction e with
  | nil => intro d k v _ h; simp [dictGet] at h
  | cons p tl ih =>
    intro d k v hnd h
    obtain ⟨k0, v0⟩ := p
    simp only [List.map_cons, List.nodup_cons] at hnd
    have step : dictUpdate d ((k0, v0) :: tl) = dictUpdate (dictSet d k0 v0) tl := rfl
    by_cases h0 : k0 = k
    · subst h0
      have hv : v0 = v := by simpa [dictGet] using h
      subst hv
      rw [step, dictGet_dictUpdate_not_mem tl (dictSet d k0 v0) k0
        (fun q hq hh => hnd.1 (hh ▸ List.mem_map_of_mem Prod.fst hq))]
      exact dictGet_dictSet_self d k0 v0
    · simp only [dictGet, h0, if_false] at h
      rw [step]
      exact ih (dictSet d k0 v0) k v hnd.2 h

/-! String-equality and containment utilities for the message proofs. -/

theorem str_eq_of_data (s t : String) (h : s.data = t.data) : s = t := by
  cases s; cases t; simp only at h; rw [h]

theorem strContains_split (s b a c : String)
    (h : s.data = a.data ++ b.data ++ c.data) : strContains s b = true := by
  apply strContains_infix
  rw [h]
  exact ⟨a.data, c.data, rfl⟩

theorem strContains_take_part (s pre b : String) (n : Nat)
    (h : s.data = pre.data ++ b.data) : strContains s (strTake b n) = true := by
  apply strContains_infix
  rw [h]
  refine ⟨pre.data, b.data.drop n, ?_⟩
  show pre.data ++ b.data.take n ++ b.data.drop n = pre.data ++ b.data
  rw [List.append_assoc, List.take_append_drop]

/-! Bridging lemmas: reduce `call_novelai_api` to the stage that a claim
is about. -/

theorem call_of_response (w : World) (k p n : String) (wd ht st sc : Int)
    (sa : String) (sd : Int) (d : String) (dp : List (String × JsonVal))
    (r : HttpResponse) (hk : k ≠ "") (hdp : parseDirector w d = .ok dp)
    (hnet : w.netOutcome = .response r) :
    (call_novelai_api w k p n wd ht st sc sa sd d).images
        = (processResponse w sd r).images
    ∧ (call_novelai_api w k p n wd ht st sc sa sd d).info
        = (processResponse w sd r).info
    ∧ (call_novelai_api w k p n wd ht st sc sa sd d).postAttempted = true := by
  unfold call_novelai_api
  rw [if_neg hk, hdp, hnet]
  exact ⟨rfl, rfl, rfl⟩

/-! Branch lemmas about `processResponse`. -/

theorem processResponse_http (w : World) (sd : Int) (r : HttpResponse)
    (h : 400 ≤ r.statusCode ∧ r.statusCode < 600) :
    processResponse w sd r =
      { images := none,
        info := "NovelAI API Error: " ++ httpErrorDetails w r,
        logs := ["NovelAI API HTTP Error: " ++ httpErrorDetails w r] } := by
  unfold processResponse
  rw [if_pos h]

theorem processResponse_zip (w : World) (sd : Int) (r : HttpResponse)
    (hraise : ¬(400 ≤ r.statusCode ∧ r.statusCode < 600))
    (hzip : strContains r.contentType "application/zip" = true) :
    processResponse w sd r =
      { images := none, info := "Error: Zip response handling not implemented yet.",
        logs := [] } := by
  unfold processResponse
  rw [if_neg hraise, if_pos hzip]

theorem processResponse_stream_ok (w : World) (sd : Int) (r : HttpResponse)
    (b64 : String) (img : Image)
    (hraise : ¬(400 ≤ r.statusCode ∧ r.statusCode < 600))
    (hzip : strContains r.contentType "application/zip" = false)
    (hstream : (strContains r.contentType "text/event-stream" ||
        strStartsWith (pyStrip r.bodyText) "event:") = true)
    (hdata : findDataLine (pySplitNl (pyStrip r.bodyText)) = some b64)
    (hb : b64 ≠ "") (hdec : w.decodeB64Image b64 = .ok img) :
    processResponse w sd r =
      { images := some [img], info := successInfo sd,
        logs := ["Image received and decoded from event stream."] } := by
  unfold processResponse
  rw [if_neg hraise, if_neg (by simp [hzip]), if_pos hstream, hdata]
  simp [hdec, hb]

theorem processResponse_stream_nodata (w : World) (sd : Int) (r : HttpResponse)
    (hraise : ¬(400 ≤ r.statusCode ∧ r.statusCode < 600))
    (hzip : strContains r.contentType "application/zip" = false)
    (hstream : (strContains r.contentType "text/event-stream" ||
        strStartsWith (pyStrip r.bodyText) "event:") = true)
    (hdata : findDataLine (pySplitNl (pyStrip r.bodyText)) = none ∨
        findDataLine (pySplitNl (pyStrip r.bodyText)) = some "") :
    processResponse w sd r = streamParseFail r := by
  unfold processResponse
  rw [if_neg hraise, if_neg (by simp [hzip]), if_pos hstream]
  rcases hdata with h | h
  · rw [h]
  · rw [h]
    simp

theorem processResponse_stream_baddecode (w : World) (sd : Int) (r : HttpResponse)
    (b64 e : String)
    (hraise : ¬(400 ≤ r.statusCode ∧ r.statusCode < 600))
    (hzip : strContains r.contentType "application/zip" = false)
    (hstream : (strContains r.contentType "text/event-stream" ||
        strStartsWith (pyStrip r.bodyText) "event:") = true)
    (hdata : findDataLine (pySplitNl (pyStrip r.bodyText)) = some b64)
    (hb : b64 ≠ "") (hdec : w.decodeB64Image b64 = .error e) :
    processResponse w sd r =
      { images := none,
        info := "Error decoding image data from NovelAI: " ++ e,
        logs := ["Error decoding base64 data: " ++ e] } := by
  unfold processResponse
  rw [if_neg hraise, if_neg (by simp [hzip]), if_pos hstream, hdata]
  simp [hdec, hb]

theorem processResponse_json (w : World) (sd : Int) (r : HttpResponse)
    (hraise : ¬(400 ≤ r.statusCode ∧ r.statusCode < 600))
    (hzip : strContains r.contentType "application/zip" = false)
    (hstream : (strContains r.contentType "text/event-stream" ||
        strStartsWith (pyStrip r.bodyText) "event:") = false)
    (hjson : strContains r.contentType "application/json" = true) :
    processResponse w sd r =
      match w.parseJson r.bodyText with
      | .ok _ =>
        { images := none,
          info := "Error: JSON response handling not implemented yet (unknown structure).",
          logs := [] }
      | .error _ =>
        { images := none,
          info := "Error: Failed to decode JSON response. Status: " ++
            toString r.statusCode ++ ", Content: " ++ strTake r.bodyText 200,
          logs := [] } := by
  unfold processResponse
  rw [if_neg hraise, if_neg (by simp [hzip]), if_neg (by simp [hstream]), if_pos hjson]

/-! Facts about the error-detail strings. -/

theorem parseDirector_error_ne (w : World) (d m : String)
    (h : parseDirector w d = .error m) : m ≠ "" := by
  unfold parseDirector at h
  by_cases hb : pyStrip d = ""
  · rw [if_pos hb] at h
    exact absurd h (by simp)
  · rw [if_neg hb] at h
    rcases hx : w.parseJson d with e | v
    · rw [hx] at h
      simp only [Except.error.injEq] at h
      rw [← h]
      exact str_append_ne_empty _ _ (by decide)
    · rw [hx] at h
      cases v <;> simp only [Except.error.injEq] at h <;>
        first
          | (rw [← h]; decide)
          | exact absurd h (by simp)

theorem httpErrorDetails_obj (w : World) (r : HttpResponse)
    (fields : List (String × JsonVal))
    (hp : w.parseJson r.bodyText = .ok (JsonVal.obj fields)) :
    httpErrorDetails w r =
      "HTTP Error: " ++ toString r.statusCode ++ "\nNovelAI Message: " ++
        pyStr ((dictGet fields "message").getD (JsonVal.str r.bodyText)) := by
  unfold httpErrorDetails
  rw [hp]

theorem httpErrorDetails_other (w : World) (r : HttpResponse)
    (hp : ∀ fields, w.parseJson r.bodyText ≠ .ok (JsonVal.obj fields)) :
    httpErrorDetails w r =
      "HTTP Error: " ++ toString r.statusCode ++ "\nResponse: " ++
        strTake r.bodyText 200 := by
  unfold httpErrorDetails
  rcases hx : w.parseJson r.bodyText with e | v
  · rfl
  · cases v <;> first | rfl | exact absurd hx (hp _)

theorem httpErrorDetails_decomp (w : World) (r : HttpResponse) :
    ∃ tail : String,
      httpErrorDetails w r = ("HTTP Error: " ++ toString r.statusCode) ++ tail := by
  by_cases hobj : ∃ fields, w.parseJson r.bodyText = .ok (JsonVal.obj fields)
  · obtain ⟨fields, hp⟩ := hobj
    refine ⟨"\nNovelAI Message: " ++
      pyStr ((dictGet fields "message").getD (JsonVal.str r.bodyText)), ?_⟩
    rw [httpErrorDetails_obj w r fields hp]
    exact str_eq_of_data _ _ (by simp [data_append, List.append_assoc])
  · refine ⟨"\nResponse: " ++ strTake r.bodyText 200, ?_⟩
    rw [httpErrorDetails_other w r (fun fields h => hobj ⟨fields, h⟩)]
    exact str_eq_of_data _ _ (by simp [data_append, List.append_assoc])

theorem unexpected_info_ne (m : String)
    (hm : strStartsWith m "Error: Unexpected" = false) (ct : String) (sc2 : Nat) :
    "Error: Unexpected Content-Type from NovelAI: " ++ ct ++ ". Status: " ++
      toString sc2 ≠ m := by
  intro h
  have h1 : strStartsWith ("Error: Unexpected Content-Type from NovelAI: " ++ ct ++
      ". Status: " ++ toString sc2) "Error: Unexpected" = true :=
    strStartsWith_append_left _ _ _ (strStartsWith_append_left _ _ _
      (strStartsWith_append_left _ _ _ (by decide)))
  rw [h, hm] at h1
  exact Bool.false_ne_true h1

theorem processResponse_shape (w : World) (sd : Int) (r : HttpResponse) :
    ((processResponse w sd r).images = none ∨
      ∃ img, (processResponse w sd r).images = some [img])
    ∧ (processResponse w sd r).info ≠ "" := by
  unfold processResponse streamParseFail successInfo
  split
  · exact ⟨Or.inl rfl, str_append_ne_empty _ _ (by decide)⟩
  · split
    · exact ⟨Or.inl rfl, by decide⟩
    · split
      · split
        · exact ⟨Or.inl rfl, str_append_ne_empty _ _ (by decide)⟩
        · split
          · exact ⟨Or.inl rfl, str_append_ne_empty _ _ (by decide)⟩
          · split
            · exact ⟨Or.inl rfl, str_append_ne_empty _ _ (by decide)⟩
            · exact ⟨Or.inr ⟨_, rfl⟩,
                str_append_ne_empty _ _ (str_append_ne_empty _ _ (by decide))⟩
      · split
        · split
          · exact ⟨Or.inl rfl, by decide⟩
          · exact ⟨Or.inl rfl, str_append_ne_empty _ _
              (str_append_ne_empty _ _ (str_append_ne_empty _ _ (by decide)))⟩
        · exact ⟨Or.inl rfl, str_append_ne_empty _ _
            (str_append_ne_empty _ _ (str_append_ne_empty _ _ (by decide)))⟩

/-- C1: every invocation of `call_novelai_api`, for any API key, inputs,
override blob and network outcome, returns exactly one of the two result
shapes — a non-empty image list (always a singleton) with a non-empty
status string, or no images with a non-empty error message — and, being a
total function of the modelled world, never propagates a fault. -/
theorem C1_result_shape (w : World) (k p n : String) (wd ht st sc : Int)
    (sa : String) (sd : Int) (d : String) :
    ((call_novelai_api w k p n wd ht st sc sa sd d).images = none ∨
      ∃ img, (call_novelai_api w k p n wd ht st sc sa sd d).images = some [img])
    ∧ (call_novelai_api w k p n wd ht st sc sa sd d).info ≠ "" := by
  by_cases hk : k = ""
  · unfold call_novelai_api
    rw [if_pos hk]
    exact ⟨Or.inl rfl, by decide⟩
  · unfold call_novelai_api
    rw [if_neg hk]
    cases hpd : parseDirector w d with
    | error m => exact ⟨Or.inl rfl, parseDirector_error_ne w d m hpd⟩
    | ok dp =>
      cases hno : w.netOutcome with
      | timeout =>
        exact ⟨Or.inl rfl, show "Error: Request to NovelAI timed out." ≠ "" by decide⟩
      | reqError e =>
        exact ⟨Or.inl rfl,
          show "Error: Network error connecting to NovelAI API: " ++ e ≠ "" from
            str_append_ne_empty _ _ (by decide)⟩
      | response r => exact processResponse_shape w sd r

/-- Witness for C1 at a concrete world and inputs. -/
theorem C1_result_shape_witness :
    (call_novelai_api wTimeoutW "k" "p" "n" 1 2 3 4 "s" 5 "").images = none
    ∧ (call_novelai_api wTimeoutW "k" "p" "n" 1 2 3 4 "s" 5 "").info ≠ "" :=
  ⟨rfl, (C1_result_shape wTimeoutW "k" "p" "n" 1 2 3 4 "s" 5 "").2⟩

/-- C3: an empty API key produces the missing-credential error with no
images, and the POST is never attempted. -/
theorem C3_missing_key (w : World) (k p n : String) (wd ht st sc : Int)
    (sa : String) (sd : Int) (d : String) (hk : k = "") :
    (call_novelai_api w k p n wd ht st sc sa sd d).images = none
    ∧ (call_novelai_api w k p n wd ht st sc sa sd d).info
        = "Error: NovelAI API Key is missing."
    ∧ (call_novelai_api w k p n wd ht st sc sa sd d).postAttempted = false
    ∧ (call_novelai_api w k p n wd ht st sc sa sd d).sentBody = none := by
  subst hk
  exact ⟨rfl, rfl, rfl, rfl⟩

/-- Witness for C3 at the empty key. -/
theorem C3_missing_key_witness :
    ("" : String) = ""
    ∧ ((call_novelai_api wTimeoutW "" "p" "n" 1 2 3 4 "s" 5 "").images = none
       ∧ (call_novelai_api wTimeoutW "" "p" "n" 1 2 3 4 "s" 5 "").info
           = "Error: NovelAI API Key is missing."
       ∧ (call_novelai_api wTimeoutW "" "p" "n" 1 2 3 4 "s" 5 "").postAttempted = false
       ∧ (call_novelai_api wTimeoutW "" "p" "n" 1 2 3 4 "s" 5 "").sentBody = none) :=
  ⟨rfl, C3_missing_key wTimeoutW "" "p" "n" 1 2 3 4 "s" 5 "" rfl⟩

/-- C4: with a usable key and a non-blank override blob, a JSON parse
failure yields the descriptive parse error and a non-object decode yields
the distinct dictionary-validation error; both carry no images and the
POST is never attempted. -/
theorem C4_override_errors (w : World) (k p n : String) (wd ht st sc : Int)
    (sa : String) (sd : Int) (d : String)
    (hk : k ≠ "") (hd : pyStrip d ≠ "") :
    (∀ e, w.parseJson d = .error e →
      (call_novelai_api w k p n wd ht st sc sa sd d).images = none
      ∧ (call_novelai_api w k p n wd ht st sc sa sd d).info
          = "Error: Invalid JSON in Director Tools field: " ++ e
      ∧ (call_novelai_api w k p n wd ht st sc sa sd d).postAttempted = false)
    ∧ (∀ v, w.parseJson d = .ok v → (∀ fields, v ≠ JsonVal.obj fields) →
      (call_novelai_api w k p n wd ht st sc sa sd d).images = none
      ∧ (call_novelai_api w k p n wd ht st sc sa sd d).info
          = "Error: Director Tools JSON must decode to a dictionary (object)."
      ∧ (call_novelai_api w k p n wd ht st sc sa sd d).postAttempted = false) := by
  constructor
  · intro e he
    have hpd : parseDirector w d
        = .error ("Error: Invalid JSON in Director Tools field: " ++ e) := by
      unfold parseDirector
      rw [if_neg hd, he]
    unfold call_novelai_api
    rw [if_neg hk, hpd]
    exact ⟨rfl, rfl, rfl⟩
  · intro v hv hno
    have hpd : parseDirector w d
        = .error "Error: Director Tools JSON must decode to a dictionary (object)." := by
      unfold parseDirector
      rw [if_neg hd, hv]
      cases v <;> first | rfl | exact absurd rfl (hno _)
    unfold call_novelai_api
    rw [if_neg hk, hpd]
    exact ⟨rfl, rfl, rfl⟩

/-- Witness for C4 on the malformed blob path. -/
theorem C4_override_errors_witness :
    ("k" : String) ≠ "" ∧ pyStrip "[1" ≠ ""
    ∧ ((call_novelai_api wTimeoutW "k" "p" "n" 1 2 3 4 "s" 5 "[1").images = none
       ∧ (call_novelai_api wTimeoutW "k" "p" "n" 1 2 3 4 "s" 5 "[1").info
           = "Error: Invalid JSON in Director Tools field: " ++ "boom"
       ∧ (call_novelai_api wTimeoutW "k" "p" "n" 1 2 3 4 "s" 5 "[1").postAttempted
           = false) :=
  ⟨by decide, by decide,
   (C4_override_errors wTimeoutW "k" "p" "n" 1 2 3 4 "s" 5 "[1"
     (by decide) (by decide)).1 "boom" rfl⟩

/-- C2 counterexample: with override blob decoding to `{"input": "x"}`,
the outbound body's top-level built-in `input` field still carries the
prompt `"p"` — the override did not shadow that built-in field of the
request body (it only landed inside the nested parameters mapping). -/
theorem C2_counterexample :
    wOverrideInput.parseJson "ovr" = .ok (.obj [("input", JsonVal.str "x")])
    ∧ jsonGet (((call_novelai_api wOverrideInput "k" "p" "n" 1 2 3 4 "s" 5
          "ovr").sentBody).getD JsonVal.null) "input" = some (JsonVal.str "p")
    ∧ JsonVal.str "p" ≠ JsonVal.str "x" :=
  ⟨rfl, rfl, by simp⟩

/-- C2 (amended): when the override blob parses to a non-empty mapping
with unique keys, the outbound body nests the merge of the overrides into
the built-in parameters mapping, and every override key is bound to the
override's value there (last-write-wins over built-in parameter keys);
the top-level input/model/action fields are never overwritten. -/
theorem C2_override_merge (w : World) (k p n : String) (wd ht st sc : Int)
    (sa : String) (sd : Int) (d : String) (ovr : List (String × JsonVal))
    (hk : k ≠ "") (hpd : parseDirector w d = .ok ovr) (hne : ovr ≠ [])
    (hnodup : (ovr.map Prod.fst).Nodup) :
    (call_novelai_api w k p n wd ht st sc sa sd d).sentBody
      = some (mkPayload p (dictUpdate (baseParams n wd ht st sc sa sd) ovr))
    ∧ ∀ key v, dictGet ovr key = some v →
        dictGet (dictUpdate (baseParams n wd ht st sc sa sd) ovr) key = some v := by
  constructor
  · have hie : ovr.isEmpty = false := by
      cases ovr with
      | nil => exact absurd rfl hne
      | cons a l => rfl
    unfold call_novelai_api
    rw [if_neg hk]
    simp only [hpd, hie, Bool.false_eq_true, if_false]
    cases hno : w.netOutcome <;> rfl
  · intro key v hkv
    exact dictGet_dictUpdate_mem ovr _ key v hnodup hkv

/-- Witness for the amended C2 with override mapping containing `foo`. -/
theorem C2_override_merge_witness :
    ("k" : String) ≠ ""
    ∧ ([(("foo" : String), JsonVal.num 1)] ≠ [])
    ∧ (call_novelai_api wOverrideFoo "k" "p" "n" 1 2 3 4 "s" 5 "o").sentBody
        = some (mkPayload "p"
            (dictUpdate (baseParams "n" 1 2 3 4 "s" 5) [("foo", JsonVal.num 1)]))
    ∧ dictGet (dictUpdate (baseParams "n" 1 2 3 4 "s" 5) [("foo", JsonVal.num 1)])
        "foo" = some (JsonVal.num 1) :=
  ⟨by decide, List.cons_ne_nil _ _,
   (C2_override_merge wOverrideFoo "k" "p" "n" 1 2 3 4 "s" 5 "o"
      [("foo", JsonVal.num 1)] (by decide) rfl (List.cons_ne_nil _ _) (by decide)).1,
   (C2_override_merge wOverrideFoo "k" "p" "n" 1 2 3 4 "s" 5 "o"
      [("foo", JsonVal.num 1)] (by decide) rfl (List.cons_ne_nil _ _) (by decide)).2
     "foo" (JsonVal.num 1) rfl⟩

/-- C5: a 2xx response classified as an event stream (declared
event-stream content type, or body sniffed via the `event:` marker) whose
first `data:` line carries a payload the decoder accepts yields exactly
one decoded image plus the success status string. -/
theorem C5_stream_success (w : World) (k p n : String) (wd ht st sc : Int)
    (sa : String) (sd : Int) (d : String) (dp : List (String × JsonVal))
    (r : HttpResponse) (b64 : String) (img : Image)
    (hk : k ≠ "") (hpd : parseDirector w d = .ok dp)
    (hnet : w.netOutcome = .response r)
    (h2xx : 200 ≤ r.statusCode ∧ r.statusCode < 300)
    (hzip : strContains r.contentType "application/zip" = false)
    (hstream : (strContains r.contentType "text/event-stream" ||
        strStartsWith (pyStrip r.bodyText) "event:") = true)
    (hdata : findDataLine (pySplitNl (pyStrip r.bodyText)) = some b64)
    (hb : b64 ≠ "") (hdec : w.decodeB64Image b64 = .ok img) :
    (call_novelai_api w k p n wd ht st sc sa sd d).images = some [img]
    ∧ (call_novelai_api w k p n wd ht st sc sa sd d).info = successInfo sd := by
  obtain ⟨hi, hf, _⟩ := call_of_response w k p n wd ht st sc sa sd d dp r hk hpd hnet
  have hraise : ¬(400 ≤ r.statusCode ∧ r.statusCode < 600) := by omega
  rw [hi, hf, processResponse_stream_ok w sd r b64 img hraise hzip hstream hdata hb hdec]
  exact ⟨rfl, rfl⟩

/-- Witness for C5 on a concrete 200 event-stream response. -/
theorem C5_stream_success_witness :
    (200 ≤ 200 ∧ 200 < 300)
    ∧ findDataLine (pySplitNl (pyStrip "data: QUJD")) = some "QUJD"
    ∧ ((call_novelai_api wStreamOk "k" "p" "n" 1 2 3 4 "s" 5 "").images
          = some [⟨7⟩]
       ∧ (call_novelai_api wStreamOk "k" "p" "n" 1 2 3 4 "s" 5 "").info
          = successInfo 5) :=
  ⟨by decide, by decide,
   C5_stream_success wStreamOk "k" "p" "n" 1 2 3 4 "s" 5 "" [] ⟨200,
       "text/event-stream", "data: QUJD"⟩ "QUJD" ⟨7⟩
     (by decide) rfl rfl (by decide) (by decide) (by decide) (by decide)
     (by decide) rfl⟩

/-- C6 counterexample: on a 200 event-stream response whose `data:`
payload fails to decode, the call fails with zero images but the error
message is the decoder message alone — it does not include the raw HTTP
status code 200, contrary to the claim. -/
theorem C6_counterexample :
    wStreamBadDecode.netOutcome = .response ⟨200, "text/event-stream", "data: QUJD"⟩
    ∧ (call_novelai_api wStreamBadDecode "k" "p" "n" 1 2 3 4 "s" 5 "").images = none
    ∧ (call_novelai_api wStreamBadDecode "k" "p" "n" 1 2 3 4 "s" 5 "").info
        = "Error decoding image data from NovelAI: bad"
    ∧ strContains "Error decoding image data from NovelAI: bad"
        (toString (200 : Nat)) = false :=
  ⟨rfl, rfl, rfl, by decide⟩

/-- C6 (amended): on a 2xx event-stream response, a missing (or empty)
`data:` payload fails with the stream-parse error, which does include the
raw status code; a payload that fails base64/image decoding fails with the
decode error carrying the decoder's message (but not the status code); in
both cases the result carries zero images. -/
theorem C6_stream_failures (w : World) (k p n : String) (wd ht st sc : Int)
    (sa : String) (sd : Int) (d : String) (dp : List (String × JsonVal))
    (r : HttpResponse)
    (hk : k ≠ "") (hpd : parseDirector w d = .ok dp)
    (hnet : w.netOutcome = .response r)
    (h2xx : 200 ≤ r.statusCode ∧ r.statusCode < 300)
    (hzip : strContains r.contentType "application/zip" = false)
    (hstream : (strContains r.contentType "text/event-stream" ||
        strStartsWith (pyStrip r.bodyText) "event:") = true) :
    ((findDataLine (pySplitNl (pyStrip r.bodyText)) = none ∨
        findDataLine (pySplitNl (pyStrip r.bodyText)) = some "") →
      (call_novelai_api w k p n wd ht st sc sa sd d).images = none
      ∧ (call_novelai_api w k p n wd ht st sc sa sd d).info
          = "Error: Could not parse image data from NovelAI stream. Status: " ++
              toString r.statusCode
      ∧ strContains (call_novelai_api w k p n wd ht st sc sa sd d).info
          (toString r.statusCode) = true)
    ∧ (∀ b64 e, findDataLine (pySplitNl (pyStrip r.bodyText)) = some b64 →
        b64 ≠ "" → w.decodeB64Image b64 = .error e →
      (call_novelai_api w k p n wd ht st sc sa sd d).images = none
      ∧ (call_novelai_api w k p n wd ht st sc sa sd d).info
          = "Error decoding image data from NovelAI: " ++ e) := by
  obtain ⟨hi, hf, _⟩ := call_of_response w k p n wd ht st sc sa sd d dp r hk hpd hnet
  have hraise : ¬(400 ≤ r.statusCode ∧ r.statusCode < 600) := by omega
  constructor
  · intro hdata
    rw [hi, hf, processResponse_stream_nodata w sd r hraise hzip hstream hdata]
    refine ⟨rfl, rfl, ?_⟩
    exact strContains_split _ _
      "Error: Could not parse image data from NovelAI stream. Status: " ""
      (by simp [streamParseFail, data_append])
  · intro b64 e hdata hb hdec
    rw [hi, hf,
      processResponse_stream_baddecode w sd r b64 e hraise hzip hstream hdata hb hdec]
    exact ⟨rfl, rfl⟩

/-- Witness for the amended C6 on a stream without a `data:` line. -/
theorem C6_stream_failures_witness :
    (findDataLine (pySplitNl (pyStrip "event: x")) = none ∨
      findDataLine (pySplitNl (pyStrip "event: x")) = some "")
    ∧ ((call_novelai_api wStreamNoData "k" "p" "n" 1 2 3 4 "s" 5 "").images = none
       ∧ (call_novelai_api wStreamNoData "k" "p" "n" 1 2 3 4 "s" 5 "").info
           = "Error: Could not parse image data from NovelAI stream. Status: " ++
               toString (200 : Nat)
       ∧ strContains (call_novelai_api wStreamNoData "k" "p" "n" 1 2 3 4 "s" 5 "").info
           (toString (200 : Nat)) = true) :=
  ⟨Or.inl (by decide),
   (C6_stream_failures wStreamNoData "k" "p" "n" 1 2 3 4 "s" 5 "" []
      ⟨200, "text/event-stream", "event: x"⟩
      (by decide) rfl rfl (by decide) (by decide) (by decide)).1
     (Or.inl (by decide))⟩

/-- C7 counterexample: a response with the non-2xx status 301 (outside
the 400-599 band `raise_for_status` reacts to) that is classified as an
event stream with a decodable payload produces a successful image result,
not the claimed zero-image error mentioning the status code. -/
theorem C7_counterexample :
    wRedirectStream.netOutcome = .response ⟨301, "text/event-stream", "data: QUJD"⟩
    ∧ ¬(200 ≤ 301 ∧ 301 < 300)
    ∧ (call_novelai_api wRedirectStream "k" "p" "n" 1 2 3 4 "s" 5 "").images
        = some [⟨7⟩] :=
  ⟨rfl, by decide, rfl⟩

/-- C7 (amended): for every response with a 4xx or 5xx status, the call
returns zero images and an error whose text includes the status code;
if the body parses as a JSON object with a `message` field that message is
included, and otherwise a truncated portion of the raw body is included —
covering both a body that is not a JSON object (truncated explicitly at
line 163) and a JSON object without a `message` field (whose full body is
echoed as the `.get` default, and so contains its truncation). -/
theorem C7_http_error (w : World) (k p n : String) (wd ht st sc : Int)
    (sa : String) (sd : Int) (d : String) (dp : List (String × JsonVal))
    (r : HttpResponse)
    (hk : k ≠ "") (hpd : parseDirector w d = .ok dp)
    (hnet : w.netOutcome = .response r)
    (h45 : 400 ≤ r.statusCode ∧ r.statusCode < 600) :
    (call_novelai_api w k p n wd ht st sc sa sd d).images = none
    ∧ strContains (call_novelai_api w k p n wd ht st sc sa sd d).info
        (toString r.statusCode) = true
    ∧ (∀ fields v, w.parseJson r.bodyText = .ok (JsonVal.obj fields) →
        dictGet fields "message" = some v →
        strContains (call_novelai_api w k p n wd ht st sc sa sd d).info
          (pyStr v) = true)
    ∧ ((∀ fields v, ¬(w.parseJson r.bodyText = .ok (JsonVal.obj fields)
          ∧ dictGet fields "message" = some v)) →
        strContains (call_novelai_api w k p n wd ht st sc sa sd d).info
          (strTake r.bodyText 200) = true) := by
  obtain ⟨hi, hf, _⟩ := call_of_response w k p n wd ht st sc sa sd d dp r hk hpd hnet
  rw [hi, hf, processResponse_http w sd r h45]
  refine ⟨rfl, ?_, ?_, ?_⟩
  · obtain ⟨tail, htail⟩ := httpErrorDetails_decomp w r
    rw [htail]
    exact strContains_split _ _ ("NovelAI API Error: " ++ "HTTP Error: ") tail
      (by simp [data_append, List.append_assoc])
  · intro fields v hx hv
    rw [httpErrorDetails_obj w r fields hx, hv]
    exact strContains_split _ _
      ("NovelAI API Error: " ++ ("HTTP Error: " ++ toString r.statusCode ++
        "\nNovelAI Message: ")) ""
      (by simp [data_append, List.append_assoc])
  · intro hno
    by_cases hobj : ∃ fields, w.parseJson r.bodyText = .ok (JsonVal.obj fields)
    · obtain ⟨fields, hp⟩ := hobj
      cases hm : dictGet fields "message" with
      | some v => exact absurd ⟨hp, hm⟩ (hno fields v)
      | none =>
        rw [httpErrorDetails_obj w r fields hp, hm]
        apply strContains_take_part _
          ("NovelAI API Error: " ++ ("HTTP Error: " ++ toString r.statusCode ++
            "\nNovelAI Message: ")) r.bodyText 200
        simp [data_append, List.append_assoc, pyStr]
    · rw [httpErrorDetails_other w r (fun fields h => hobj ⟨fields, h⟩)]
      exact strContains_split _ _
        ("NovelAI API Error: " ++ ("HTTP Error: " ++ toString r.statusCode ++
          "\nResponse: ")) ""
        (by simp [data_append, List.append_assoc])

/-- Witness for the amended C7 on a concrete 401 with a JSON `message`. -/
theorem C7_http_error_witness :
    (400 ≤ 401 ∧ 401 < 600)
    ∧ (call_novelai_api wHttp401 "k" "p" "n" 1 2 3 4 "s" 5 "").images = none
    ∧ strContains (call_novelai_api wHttp401 "k" "p" "n" 1 2 3 4 "s" 5 "").info
        (pyStr (JsonVal.str "bad key")) = true :=
  ⟨by decide,
   (C7_http_error wHttp401 "k" "p" "n" 1 2 3 4 "s" 5 "" []
      ⟨401, "application/json", "body"⟩ (by decide) rfl rfl (by decide)).1,
   (C7_http_error wHttp401 "k" "p" "n" 1 2 3 4 "s" 5 "" []
      ⟨401, "application/json", "body"⟩ (by decide) rfl rfl (by decide)).2.2.1
     [("message", JsonVal.str "bad key")] (JsonVal.str "bad key") rfl rfl⟩

/-- C8 counterexample: a 200 response with declared JSON content type
whose body fails to parse as JSON produces the decode-failure error, not
the claimed "not implemented" unsupported-format error. -/
theorem C8_counterexample :
    wJsonBad.netOutcome = .response ⟨200, "application/json", "x"⟩
    ∧ strContains "application/json" "application/json" = true
    ∧ (call_novelai_api wJsonBad "k" "p" "n" 1 2 3 4 "s" 5 "").images = none
    ∧ (call_novelai_api wJsonBad "k" "p" "n" 1 2 3 4 "s" 5 "").info
        = "Error: Failed to decode JSON response. Status: 200, Content: x"
    ∧ "Error: Failed to decode JSON response. Status: 200, Content: x"
        ≠ "Error: JSON response handling not implemented yet (unknown structure)." :=
  ⟨rfl, by decide, rfl, rfl, by decide⟩

/-- C8 (amended): on a 2xx response, a zip content type yields the zip
"not implemented" error, and a JSON content type that is not sniffed as an
event stream and whose body parses as JSON yields the JSON "not
implemented" error (an unparseable body instead yields a decode-failure
error); both unimplemented shapes carry zero images and stay distinct
from each other and from every unexpected-content-type error. -/
theorem C8_unimplemented (w : World) (k p n : String) (wd ht st sc : Int)
    (sa : String) (sd : Int) (d : String) (dp : List (String × JsonVal))
    (r : HttpResponse)
    (hk : k ≠ "") (hpd : parseDirector w d = .ok dp)
    (hnet : w.netOutcome = .response r)
    (h2xx : 200 ≤ r.statusCode ∧ r.statusCode < 300) :
    (strContains r.contentType "application/zip" = true →
      (call_novelai_api w k p n wd ht st sc sa sd d).images = none
      ∧ (call_novelai_api w k p n wd ht st sc sa sd d).info
          = "Error: Zip response handling not implemented yet.")
    ∧ (strContains r.contentType "application/zip" = false →
       (strContains r.contentType "text/event-stream" ||
          strStartsWith (pyStrip r.bodyText) "event:") = false →
       strContains r.contentType "application/json" = true →
       ∀ j, w.parseJson r.bodyText = .ok j →
      (call_novelai_api w k p n wd ht st sc sa sd d).images = none
      ∧ (call_novelai_api w k p n wd ht st sc sa sd d).info
          = "Error: JSON response handling not implemented yet (unknown structure).")
    ∧ "Error: Zip response handling not implemented yet."
        ≠ "Error: JSON response handling not implemented yet (unknown structure)."
    ∧ (∀ ct : String, ∀ sc2 : Nat,
        ("Error: Unexpected Content-Type from NovelAI: " ++ ct ++ ". Status: " ++
            toString sc2 ≠ "Error: Zip response handling not implemented yet.")
        ∧ ("Error: Unexpected Content-Type from NovelAI: " ++ ct ++ ". Status: " ++
            toString sc2
            ≠ "Error: JSON response handling not implemented yet (unknown structure).")) := by
  obtain ⟨hi, hf, _⟩ := call_of_response w k p n wd ht st sc sa sd d dp r hk hpd hnet
  have hraise : ¬(400 ≤ r.statusCode ∧ r.statusCode < 600) := by omega
  refine ⟨?_, ?_, by decide, ?_⟩
  · intro hzip
    rw [hi, hf, processResponse_zip w sd r hraise hzip]
    exact ⟨rfl, rfl⟩
  · intro hzip hstream hjson j hj
    rw [hi, hf, processResponse_json w sd r hraise hzip hstream hjson, hj]
    exact ⟨rfl, rfl⟩
  · intro ct sc2
    exact ⟨unexpected_info_ne _ (by decide) ct sc2,
           unexpected_info_ne _ (by decide) ct sc2⟩

/-- Witness for the amended C8 on a concrete 200 zip response. -/
theorem C8_unimplemented_witness :
    strContains "application/zip" "application/zip" = true
    ∧ (200 ≤ 200 ∧ 200 < 300)
    ∧ ((call_novelai_api wZip "k" "p" "n" 1 2 3 4 "s" 5 "").images = none
       ∧ (call_novelai_api wZip "k" "p" "n" 1 2 3 4 "s" 5 "").info
           = "Error: Zip response handling not implemented yet.") :=
  ⟨by decide, by decide,
   (C8_unimplemented wZip "k" "p" "n" 1 2 3 4 "s" 5 "" []
      ⟨200, "application/zip", "zzz"⟩ (by decide) rfl rfl (by decide)).1
     (by decide)⟩

/-- C9: the emitted log lines (payload dump and status line, plus any
branch diagnostics) are identical across two invocations that differ only
in their non-empty API key, with the world and all other inputs equal —
the key never reaches the logs even though it is sent in the headers. -/
theorem C9_logs_key_independent (w : World) (k1 k2 p n : String)
    (wd ht st sc : Int) (sa : String) (sd : Int) (d : String)
    (h1 : k1 ≠ "") (h2 : k2 ≠ "") :
    (call_novelai_api w k1 p n wd ht st sc sa sd d).logs
      = (call_novelai_api w k2 p n wd ht st sc sa sd d).logs := by
  unfold call_novelai_api
  rw [if_neg h1, if_neg h2]
  cases hpd : parseDirector w d with
  | error m => rfl
  | ok dp => cases hno : w.netOutcome <;> rfl

/-- Witness for C9 at two concrete non-empty keys. -/
theorem C9_logs_key_independent_witness :
    ("a" : String) ≠ "" ∧ ("b" : String) ≠ ""
    ∧ (call_novelai_api wTimeoutW "a" "p" "n" 1 2 3 4 "s" 5 "").logs
        = (call_novelai_api wTimeoutW "b" "p" "n" 1 2 3 4 "s" 5 "").logs :=
  ⟨by decide, by decide,
   C9_logs_key_independent wTimeoutW "a" "b" "p" "n" 1 2 3 4 "s" 5 ""
     (by decide) (by decide)⟩

/-- C10: when the script is enabled and the API call returns no images,
`run` writes the error message under the key `"NovelAI Error"` into the
processing object's `extra_generation_params` and returns a zero-image
result carrying the prefixed message; on a call returning images, and
when the enable flag is false, the processing object is returned
unmodified. -/
theorem C10_run_frame (w : World) (p : Processing) (enabled : Bool)
    (k : String) (st : Int) (sa : String) (sc sd : Int) (d : String) :
    (enabled = false →
      (NovelAIDirectorScript.run w p enabled k st sa sc sd d).1 = p)
    ∧ (enabled = true →
       (call_novelai_api w k p.prompt p.negative_prompt p.width p.height
          st sc sa sd d).images = none →
      (NovelAIDirectorScript.run w p enabled k st sa sc sd d).1
        = { p with extra_generation_params :=
            (dictSet p.extra_generation_params "NovelAI Error"
              (call_novelai_api w k p.prompt p.negative_prompt p.width p.height
                st sc sa sd d).info) }
      ∧ (NovelAIDirectorScript.run w p enabled k st sa sc sd d).2.images = []
      ∧ (NovelAIDirectorScript.run w p enabled k st sa sc sd d).2.info
          = "NovelAI Generation Failed: " ++
              (call_novelai_api w k p.prompt p.negative_prompt p.width p.height
                st sc sa sd d).info)
    ∧ (enabled = true → ∀ img rest,
       (call_novelai_api w k p.prompt p.negative_prompt p.width p.height
          st sc sa sd d).images = some (img :: rest) →
      (NovelAIDirectorScript.run w p enabled k st sa sc sd d).1 = p) := by
  refine ⟨?_, ?_, ?_⟩
  · intro he
    subst he
    rfl
  · intro he hnone
    subst he
    unfold NovelAIDirectorScript.run
    rw [if_neg (by decide : ¬((!true) = true))]
    simp [hnone]
  · intro he img rest hsome
    subst he
    unfold NovelAIDirectorScript.run
    rw [if_neg (by decide : ¬((!true) = true))]
    simp only [hsome]

/-- Witness for C10 with the enable flag off. -/
theorem C10_run_frame_witness :
    (false = false)
    ∧ (NovelAIDirectorScript.run wTimeoutW procX false "k" 3 "s" 4 5 "").1 = procX :=
  ⟨rfl, (C10_run_frame wTimeoutW procX false "k" 3 "s" 4 5 "").1 rfl⟩
